import Mathlib

/-!
Verification of the Content Proxy & Extraction Engine
(src-tauri/src/main.rs, src-tauri/src/shared.rs, src-tauri/src/proxy.rs).

The Rust sources are shallowly embedded: the pure classification /
rewriting / response-construction logic is translated into executable
Lean definitions, network effects are represented by explicit inputs
(the upstream status, headers and body a fetch produced) or by oracle
parameters, and the relevant behavior of the external crates
(urlencoding, url, readability, reqwest) is modelled by small
executable definitions documented at their declaration.
-/

namespace Spec2Proof

/-! ### Generic string helpers (byte- and char-level, kernel-computable) -/

/-- Contiguous-sublist test on lists. -/
def listInfix : List Char → List Char → Bool
  | pat, [] => pat.isEmpty
  | pat, a :: t => pat.isPrefixOf (a :: t) || listInfix pat t

/-- Substring containment, modelling Rust str contains with a string pattern. -/
def containsSubstr (s pat : String) : Bool :=
  listInfix pat.data s.data

/-- Prefix test, modelling Rust str starts_with. -/
def strStartsWith (s pre : String) : Bool :=
  pre.data.isPrefixOf s.data

/-- Drops the first character; models the Rust byte-slice href[1..] in the
only context it is used, where the first character is the ASCII slash. -/
def strDrop1 (s : String) : String :=
  ⟨s.data.drop 1⟩

/-- Unicode White_Space property, the whitespace set used by Rust
str trim and by the regex crate class backslash-s (Unicode mode). -/
def rustIsWhitespace (c : Char) : Bool :=
  let n := c.toNat
  (0x09 ≤ n ∧ n ≤ 0x0D) ∨ n = 0x20 ∨ n = 0x85 ∨ n = 0xA0 ∨ n = 0x1680 ∨
  (0x2000 ≤ n ∧ n ≤ 0x200A) ∨ n = 0x2028 ∨ n = 0x2029 ∨ n = 0x202F ∨
  n = 0x205F ∨ n = 0x3000

/-- Models Rust str trim: removes leading and trailing White_Space. -/
def rustTrim (s : String) : String :=
  ⟨((s.data.dropWhile rustIsWhitespace).reverse.dropWhile rustIsWhitespace).reverse⟩

/-- Models Rust char is_control: the Unicode Cc category. -/
def rustIsControl (c : Char) : Bool :=
  c.toNat < 0x20 ∨ (0x7F ≤ c.toNat ∧ c.toNat ≤ 0x9F)

/-- UTF-8 encoding of a single character (Rust strings are UTF-8 bytes;
Rust str len and percent-codecs operate on these bytes). -/
def utf8EncodeChar (c : Char) : List Nat :=
  let n := c.toNat
  if n < 0x80 then [n]
  else if n < 0x800 then [0xC0 + n / 64, 0x80 + n % 64]
  else if n < 0x10000 then [0xE0 + n / 4096, 0x80 + (n / 64) % 64, 0x80 + n % 64]
  else [0xF0 + n / 262144, 0x80 + (n / 4096) % 64, 0x80 + (n / 64) % 64, 0x80 + n % 64]

/-- UTF-8 byte sequence of a string. -/
def utf8Bytes (s : String) : List Nat :=
  s.data.foldr (fun c acc => utf8EncodeChar c ++ acc) []

/-- Byte length of a string, modelling Rust str len. -/
def rustLen (s : String) : Nat :=
  (utf8Bytes s).length

/-- Is the byte a UTF-8 continuation byte. -/
def isCont (b : Nat) : Bool := 0x80 ≤ b ∧ b ≤ 0xBF

/-- Strict UTF-8 decoding, modelling Rust String from_utf8: rejects
overlong forms, surrogates and out-of-range values. -/
def utf8Decode : List Nat → Option (List Char)
  | [] => some []
  | b :: rest =>
    if b < 0x80 then
      (utf8Decode rest).map (Char.ofNat b :: ·)
    else if 0xC2 ≤ b ∧ b ≤ 0xDF then
      match rest with
      | c1 :: rest2 =>
        if isCont c1 then
          (utf8Decode rest2).map (Char.ofNat ((b - 0xC0) * 64 + (c1 - 0x80)) :: ·)
        else none
      | _ => none
    else if 0xE0 ≤ b ∧ b ≤ 0xEF then
      match rest with
      | c1 :: c2 :: rest2 =>
        let lo1 : Nat := if b = 0xE0 then 0xA0 else 0x80
        let hi1 : Nat := if b = 0xED then 0x9F else 0xBF
        if (lo1 ≤ c1 ∧ c1 ≤ hi1) ∧ isCont c2 then
          (utf8Decode rest2).map
            (Char.ofNat ((b - 0xE0) * 4096 + (c1 - 0x80) * 64 + (c2 - 0x80)) :: ·)
        else none
      | _ => none
    else if 0xF0 ≤ b ∧ b ≤ 0xF4 then
      match rest with
      | c1 :: c2 :: c3 :: rest2 =>
        let lo1 : Nat := if b = 0xF0 then 0x90 else 0x80
        let hi1 : Nat := if b = 0xF4 then 0x8F else 0xBF
        if (lo1 ≤ c1 ∧ c1 ≤ hi1) ∧ isCont c2 ∧ isCont c3 then
          (utf8Decode rest2).map
            (Char.ofNat ((b - 0xF0) * 262144 + (c1 - 0x80) * 4096 +
              (c2 - 0x80) * 64 + (c3 - 0x80)) :: ·)
        else none
      | _ => none
    else none

/-- Bytes kept verbatim by the urlencoding crate encode function:
ASCII alphanumerics and the marks dash, underscore, dot, tilde. -/
def urlSafeByte (b : Nat) : Bool :=
  (0x41 ≤ b ∧ b ≤ 0x5A) ∨ (0x61 ≤ b ∧ b ≤ 0x7A) ∨ (0x30 ≤ b ∧ b ≤ 0x39) ∨
  b = 0x2D ∨ b = 0x5F ∨ b = 0x2E ∨ b = 0x7E

/-- Uppercase hexadecimal digit. -/
def hexDigitUpper (n : Nat) : Char :=
  if n < 10 then Char.ofNat (0x30 + n) else Char.ofNat (0x41 + n - 10)

/-- Percent-encodes a byte sequence as the urlencoding crate encode does. -/
def percentEncodeBytes : List Nat → List Char
  | [] => []
  | b :: rest =>
    if urlSafeByte b then Char.ofNat b :: percentEncodeBytes rest
    else Char.ofNat 0x25 :: hexDigitUpper (b / 16) :: hexDigitUpper (b % 16) ::
      percentEncodeBytes rest

/-- Models urlencoding encode: UTF-8 bytes, percent-escaped except safe bytes. -/
def percentEncode (s : String) : String :=
  ⟨percentEncodeBytes (utf8Bytes s)⟩

/-- Value of a hexadecimal digit byte, if it is one. -/
def hexVal (b : Nat) : Option Nat :=
  if 0x30 ≤ b ∧ b ≤ 0x39 then some (b - 0x30)
  else if 0x41 ≤ b ∧ b ≤ 0x46 then some (b - 0x41 + 10)
  else if 0x61 ≤ b ∧ b ≤ 0x66 then some (b - 0x61 + 10)
  else none

/-- Percent-decoding pass over bytes, as the urlencoding crate decode does:
a percent followed by two hex digits becomes a byte, anything else is
passed through verbatim. -/
def pdAux : Nat → List Nat → List Nat
  | 0, l => l
  | _ + 1, [] => []
  | fuel + 1, b :: rest =>
    if b = 0x25 then
      match rest with
      | h :: l :: rest2 =>
        match hexVal h, hexVal l with
        | some a, some c => (16 * a + c) :: pdAux fuel rest2
        | _, _ => b :: pdAux fuel (h :: l :: rest2)
      | _ => b :: pdAux fuel rest
    else b :: pdAux fuel rest

/-- Runs the decoding pass with enough fuel for the whole input (every
step consumes at least one byte, so the fuel never runs out). -/
def percentDecodeBytes (l : List Nat) : List Nat :=
  pdAux l.length l

/-- Models urlencoding decode: percent-decode the bytes, then validate
UTF-8; the only failure is invalid UTF-8 in the decoded bytes. -/
def percentDecode (s : String) : Option String :=
  (utf8Decode (percentDecodeBytes (utf8Bytes s))).map fun cs => ⟨cs⟩

/-! ### Model of the url crate (restricted to http(s)-style absolute URLs)

The engine uses url::Url for parsing targets and resolving relative
references. The model below covers the scheme://host/path?query shape
the engine actually handles; userinfo, ports and fragments are not
represented (no claim depends on them), and non-special schemes are out
of scope, so parse fails on them as it does on relative references. -/

structure Url where
  scheme : String
  host : Option String
  path : String
  query : Option String
  deriving DecidableEq, Repr

/-- Splits a character list at the first occurrence of a pattern. -/
def breakAtSub (pat : List Char) : List Char → Option (List Char × List Char)
  | [] => if pat.isEmpty then some ([], []) else none
  | a :: t =>
    if pat.isPrefixOf (a :: t) then some ([], (a :: t).drop pat.length)
    else (breakAtSub pat t).map (fun p => (a :: p.1, p.2))

/-- Splits a character list at the first occurrence of a character:
the part before it, and the part after it if it occurs. -/
def splitAtChar (c : Char) (l : List Char) : List Char × Option (List Char) :=
  match breakAtSub [c] l with
  | some (pre, post) => (pre, some post)
  | none => (l, none)

/-- ASCII lowercase of a character list (the url crate lowercases
scheme and host). -/
def asciiLower (l : List Char) : List Char :=
  l.map fun c =>
    if 0x41 ≤ c.toNat ∧ c.toNat ≤ 0x5A then Char.ofNat (c.toNat + 0x20) else c

/-- Valid scheme: nonempty, leading ASCII letter, then letters, digits,
plus, minus or dot. -/
def validScheme (l : List Char) : Bool :=
  match l with
  | [] => false
  | a :: rest =>
    a.isAlpha && rest.all fun c => c.isAlpha || c.isDigit ||
      c = Char.ofNat 0x2B || c = Char.ofNat 0x2D || c = Char.ofNat 0x2E

/-- Models url::Url::parse for absolute scheme://host URLs; returns
none where the crate errors (no scheme, empty host, relative input). -/
def Url.parse (s : String) : Option Url :=
  match breakAtSub "://".data s.data with
  | none => none
  | some (schemeRaw, rest) =>
    if validScheme schemeRaw then
      let (beforeFrag, _) := splitAtChar (Char.ofNat 0x23) rest
      let (beforeQuery, queryPart) := splitAtChar (Char.ofNat 0x3F) beforeFrag
      let (hostRaw, pathPart) := splitAtChar (Char.ofNat 0x2F) beforeQuery
      if hostRaw.isEmpty then none
      else
        some { scheme := ⟨asciiLower schemeRaw⟩
               host := some ⟨asciiLower hostRaw⟩
               path := ⟨Char.ofNat 0x2F :: (pathPart.getD [])⟩
               query := queryPart.map fun q => ⟨q⟩ }
    else none

/-- Serialization of a URL, modelling url::Url to_string on the
represented shape. -/
def Url.toStr (u : Url) : String :=
  u.scheme ++ "://" ++ u.host.getD "" ++ u.path ++
    (match u.query with
     | some q => "?" ++ q
     | none => "")

/-- Path segments of an absolute path (everything after the leading
slash, split on slashes). -/
def pathSegments (p : String) : List String :=
  (p.splitOn "/").drop 1

/-- Resolves dot segments against a reversed stack of leading segments,
as RFC 3986 merge/remove_dot_segments does (the url crate algorithm). -/
def resolveSegs : List String → List String → List String
  | stack, [] => stack.reverse
  | stack, "." :: rest =>
    if rest.isEmpty then ("" :: stack).reverse else resolveSegs stack rest
  | stack, ".." :: rest =>
    if rest.isEmpty then ("" :: stack.drop 1).reverse
    else resolveSegs (stack.drop 1) rest
  | stack, s :: rest => resolveSegs (s :: stack) rest

/-- Joins segments back into an absolute path. -/
def segsToPath (l : List String) : String :=
  "/" ++ String.intercalate "/" l

/-- Models url::Url::join for the reference shapes the rewriter meets:
absolute URLs, protocol-relative, domain-root and ordinary relative
references, with query splitting and dot-segment resolution. -/
def Url.join (base : Url) (r : String) : Option Url :=
  if containsSubstr r "://" then Url.parse r
  else if strStartsWith r "//" then Url.parse (base.scheme ++ ":" ++ r)
  else
    let (beforeFrag, _) := splitAtChar (Char.ofNat 0x23) r.data
    let (pathRaw, queryRaw) := splitAtChar (Char.ofNat 0x3F) beforeFrag
    let query := queryRaw.map fun q => (⟨q⟩ : String)
    if pathRaw.isEmpty then
      if queryRaw.isSome then some { base with query := query }
      else some { base with query := base.query }
    else if (⟨pathRaw⟩ : String).startsWith "/" then
      some { base with
        path := segsToPath (resolveSegs [] (pathSegments ⟨pathRaw⟩))
        query := query }
    else
      let baseDir := (pathSegments base.path).dropLast
      some { base with
        path := segsToPath (resolveSegs []
          (baseDir ++ (((⟨pathRaw⟩ : String).splitOn "/"))))
        query := query }

/-! ### Article extraction pipeline

Embeds the classification logic of fetch_article (src-tauri/src/main.rs,
lines 126-241); logic_fetch_article (src-tauri/src/shared.rs, lines
131-250) is verbatim the same classification code, differing only in
request headers sent before it, so one embedding covers both. The
response is represented by its Content-Type header (none when absent)
and decoded body; the readability crate extractor result is an oracle
parameter (none models Err, some models Ok with its content field). -/

/-- Result content field of readability extractor extract. -/
structure Product where
  content : String

def fallbackSignal : String := "READABILITY_FAILED_FALLBACK"

def canonicalEmptyDoc : String :=
  "<!DOCTYPE html><html><head></head><body></body></html>"

/-- Single-quote character as a string (U+0027). -/
def quoteStr : String := ⟨[Char.ofNat 0x27]⟩

/-- Error message of the content-type rejection in fetch_article. -/
def contentTypeErrMsg (ct : String) : String :=
  "Content type " ++ quoteStr ++ ct ++ quoteStr ++ " is not HTML"

def emptyErrMsg : String := "Fetched HTML content is empty."

def binaryErrMsg : String := "Content appears to be binary or corrupted."

/-- Content tags whose presence blocks the under-150-byte fallback. -/
def hasContentTag (t : String) : Bool :=
  containsSubstr t "<p" || containsSubstr t "<div" ||
  containsSubstr t "<article" || containsSubstr t "<main" ||
  containsSubstr t "<section" || containsSubstr t "<h1" ||
  containsSubstr t "<h2" || containsSubstr t "<span"

def emptyPattern2 : String :=
  "<!doctype html><html><head></head><body></body></html>"

def emptyPattern3 : String := "<html><head></head><body></body></html>"

/-- Drops an expected prefix, returning the remainder on match. -/
def dropPre : List Char → List Char → Option (List Char)
  | l, [] => some l
  | [], _ :: _ => none
  | a :: l, b :: p => if a = b then dropPre l p else none

/-- Matches the fourth empty-document regex of fetch_article:
the DOCTYPE skeleton with optional whitespace inside head and body. -/
def matchesPattern4 (s : List Char) : Bool :=
  match dropPre s "<!DOCTYPE html><html><head>".data with
  | none => false
  | some r1 =>
    match dropPre (r1.dropWhile rustIsWhitespace) "</head><body>".data with
    | none => false
    | some r2 => (r2.dropWhile rustIsWhitespace) == "</body></html>".data

/-- The four empty-html regex patterns of fetch_article, applied to the
normalized (trimmed, newline-stripped) body. -/
def matchesEmptyPattern (s : String) : Bool :=
  s == canonicalEmptyDoc || s == emptyPattern2 || s == emptyPattern3 ||
  matchesPattern4 s.data

/-- Steps of fetch_article after the minimal-document heuristic: binary
check, normalized empty-document patterns, under-200-byte check, then
readability extraction and post-extraction checks. -/
def fetchArticleTail (html : String) (extract : Option Product) :
    Except String String :=
  if (html.data.take 100).any (fun c =>
      rustIsControl c && c ≠ Char.ofNat 10 && c ≠ Char.ofNat 13 &&
      c ≠ Char.ofNat 9) then
    .error binaryErrMsg
  else
    let htmlNormalized : String :=
      ⟨(rustTrim html).data.filter fun c =>
        c ≠ Char.ofNat 10 ∧ c ≠ Char.ofNat 13⟩
    if matchesEmptyPattern htmlNormalized then .ok fallbackSignal
    else if rustLen html < 200 && !(containsSubstr html "<p") &&
        !(containsSubstr html "<div") && !(containsSubstr html "<article") &&
        !(containsSubstr html "<main") then
      .ok fallbackSignal
    else
      match extract with
      | some product =>
        let extractedContent := rustTrim product.content
        if extractedContent == "" then .ok fallbackSignal
        else if rustLen extractedContent < 100 &&
            (containsSubstr extractedContent "<head></head>" ||
             extractedContent == canonicalEmptyDoc) then
          .ok fallbackSignal
        else .ok product.content
      | none => .ok fallbackSignal

/-- Classification pipeline of fetch_article, from the content-type
check to the extraction result. -/
def fetchArticle (contentTypeHeader : Option String) (html : String)
    (extract : Option Product) : Except String String :=
  let contentType := contentTypeHeader.getD ""
  if !(containsSubstr contentType "text/html") &&
      !(containsSubstr contentType "application/xhtml") then
    .error (contentTypeErrMsg contentType)
  else if rustTrim html == "" then
    .error emptyErrMsg
  else
    let trimmed := rustTrim html
    if trimmed == canonicalEmptyDoc then .ok fallbackSignal
    else if rustLen trimmed < 150 then
      if containsSubstr trimmed "<head></head>" &&
          containsSubstr trimmed "<body></body>" then
        .ok fallbackSignal
      else if !(hasContentTag trimmed) then .ok fallbackSignal
      else fetchArticleTail html extract
    else fetchArticleTail html extract

/-! ### Page Handler HTML rewriting callbacks (proxy.rs, proxy_handler)

The lol_html rewriter applies a callback per selected element; the
callbacks are pure functions from the attribute value (plus the target
URL and proxy port) to the new attribute value, embedded here. -/

/-- Callback of the page handler for any element bearing src
(proxy.rs lines 1078-1108): skips data/blob/proxy-origin/absolute
values, absolutizes protocol-relative and domain-root values from the
target scheme and host, joins ordinary relative values against the
target, and routes the result through the resource handler. -/
def rewriteSrcAttr (targetUrl : Url) (proxyPort : Nat) (src : String) : String :=
  if !(strStartsWith src "data:") && !(strStartsWith src "blob:") &&
      !(strStartsWith src "http://localhost:") &&
      !(strStartsWith src "https://") && !(strStartsWith src "http://") then
    let absoluteUrl : Option String :=
      if strStartsWith src "//" then
        some (targetUrl.scheme ++ ":" ++ src)
      else if strStartsWith src "/" then
        some (targetUrl.scheme ++ "://" ++ targetUrl.host.getD "localhost" ++ src)
      else
        (targetUrl.join src).map Url.toStr
    match absoluteUrl with
    | some abs =>
      "http://localhost:" ++ toString proxyPort ++ "/proxy?url=" ++
        percentEncode abs
    | none => src
  else src

/-- Callback of the page handler for anchor href (proxy.rs lines
1139-1153): after the same skip conditions, a value with a leading
slash loses the slash; every other value is left unchanged. -/
def rewriteNavHref (href : String) : String :=
  if !(strStartsWith href "data:") && !(strStartsWith href "blob:") &&
      !(strStartsWith href "http://localhost:") && !(strStartsWith href "#") &&
      !(strStartsWith href "javascript:") && !(strStartsWith href "mailto:") &&
      !(strStartsWith href "https://") && !(strStartsWith href "http://") then
    if strStartsWith href "/" then strDrop1 href else href
  else href

/-! ### Response construction of the two proxy handlers -/

/-- Response as the handlers build it: status, ordered header list
(names lowercase, as reqwest and axum normalize them), body. -/
structure HttpResponse where
  status : Nat
  headers : List (String × String)
  body : String
  deriving DecidableEq, Repr

/-- First header value for a name, modelling HeaderMap get. -/
def headerLookup (hs : List (String × String)) (k : String) : Option String :=
  (hs.find? (fun kv => kv.1 == k)).map (·.2)

/-- CORS headers both handlers add to forwarded responses. -/
def corsHeaders : List (String × String) :=
  [("access-control-allow-origin", "*"),
   ("access-control-allow-methods", "GET, POST, OPTIONS"),
   ("access-control-allow-headers", "Content-Type, Authorization")]

/-- Upstream headers the handlers forward: everything except
Content-Length, Content-Security-Policy, X-Frame-Options and
Transfer-Encoding. -/
def keepHeader (k : String) : Bool :=
  !(k == "content-length") && !(k == "content-security-policy") &&
  !(k == "x-frame-options") && !(k == "transfer-encoding")

/-- Models Rust str replace of the single quote by backslash quote,
applied to the domain before interpolation into the auth page script. -/
def escapeQuote (s : String) : String :=
  ⟨s.data.foldr
    (fun c acc =>
      if c = Char.ofNat 0x27 then Char.ofNat 0x5C :: Char.ofNat 0x27 :: acc
      else c :: acc) []⟩

/-- Auth page format string up to the first interpolation (the escaped
domain inside the script). -/
def authHtmlPre : String :=
  "<!DOCTYPE html>\n<html>\n<head><meta charset=\"UTF-8\"></head>\n<body>\n<script>\nwindow.parent.postMessage(\x7b\n  type: \x27PROXY_AUTH_REQUIRED\x27,\n  domain: \x27"

/-- Auth page format string between the two interpolations; ends with
the human-readable message lead-in. -/
def authHtmlMid : String :=
  "\x27\n\x7d, \x27*\x27);\n</script>\n<p style=\"font-family: system-ui; text-align: center; padding: 2rem;\">\nAuthentication required for "

/-- Auth page format string after the second interpolation. -/
def authHtmlPost : String := "\n</p>\n</body>\n</html>"

/-- The synthesized 401 auth page both handlers return (proxy.rs lines
753-771 and 1016-1034): a script posting PROXY_AUTH_REQUIRED with the
domain to the parent window, then a human-readable message. -/
def authRequiredHtml (domain : String) : String :=
  authHtmlPre ++ escapeQuote domain ++ authHtmlMid ++ domain ++ authHtmlPost

/-- Origin string the handlers compute for auth lookup and signalling:
scheme, colon-slash-slash, host (or localhost when the URL has none). -/
def originOf (u : Url) : String :=
  u.scheme ++ "://" ++ u.host.getD "localhost"

/-- Response-construction stage of proxy_handler (proxy.rs lines
1012-1222) as a function of the upstream response: on 401 a synthesized
200 auth page with only a Content-Type header; otherwise the upstream
status, CORS headers plus the kept upstream headers, and the body,
passed through the HTML rewriter when the content type is HTML (the
rewriter itself is an oracle parameter here; its per-element callbacks
are embedded above). -/
def pageRespond (domain : String) (upstream : HttpResponse)
    (rewriteHtml : String → String) : HttpResponse :=
  if upstream.status == 401 then
    { status := 200
      headers := [("content-type", "text/html; charset=utf-8")]
      body := authRequiredHtml domain }
  else
    let contentType := (headerLookup upstream.headers "content-type").getD ""
    { status := upstream.status
      headers := corsHeaders ++ upstream.headers.filter (fun kv => keepHeader kv.1)
      body := if containsSubstr contentType "text/html" then
          rewriteHtml upstream.body
        else upstream.body }

/-- Response-construction stage of proxy_resource_handler (proxy.rs
lines 749-901); the source duplicates the page handler logic verbatim,
so the definition mirrors it. -/
def resourceRespond (domain : String) (upstream : HttpResponse)
    (rewriteHtml : String → String) : HttpResponse :=
  if upstream.status == 401 then
    { status := 200
      headers := [("content-type", "text/html; charset=utf-8")]
      body := authRequiredHtml domain }
  else
    let contentType := (headerLookup upstream.headers "content-type").getD ""
    { status := upstream.status
      headers := corsHeaders ++ upstream.headers.filter (fun kv => keepHeader kv.1)
      body := if containsSubstr contentType "text/html" then
          rewriteHtml upstream.body
        else upstream.body }

/-- Outcome of a handler: a response, or an early Err(StatusCode). -/
inductive HandlerResult where
  | response (r : HttpResponse)
  | failStatus (code : Nat)
  deriving DecidableEq, Repr

/-- First query parameter for a key. -/
def lookupParam (ps : List (String × String)) (k : String) : Option String :=
  (ps.find? (fun kv => kv.1 == k)).map (·.2)

/-- proxy_resource_handler (proxy.rs lines 656-901): validates the url
query parameter (present, percent-decodable, URL-parseable; each
failure is 400 Bad Request before any network use), then fetches the
target (oracle) and builds the response. -/
def proxyResourceHandler (params : List (String × String))
    (fetch : Url → HttpResponse) (rewriteHtml : String → String) :
    HandlerResult :=
  match lookupParam params "url" with
  | none => .failStatus 400
  | some raw =>
    match percentDecode raw with
    | none => .failStatus 400
    | some decoded =>
      match Url.parse decoded with
      | none => .failStatus 400
      | some target =>
        .response (resourceRespond (originOf target) (fetch target) rewriteHtml)

/-! ### fetch_raw_html and start_proxy -/

/-- Post-fetch stage of fetch_raw_html (main.rs lines 115-122) and
logic_fetch_raw_html (shared.rs lines 116-128): a 401 upstream status
becomes the structured AUTH_REQUIRED error carrying the origin; any
other status yields the decoded body text. -/
def fetchRawHtmlRespond (u : Url) (status : Nat) (bodyText : String) :
    Except String String :=
  if status == 401 then .error ("AUTH_REQUIRED:" ++ originOf u)
  else .ok bodyText

/-- State transition of start_proxy (main.rs lines 26-45) over the
stored port: returns the returned port, the stored port afterwards, and
whether a new listener was spawned (start_proxy_server called). -/
def startProxy : Option Nat → Nat → Nat × Option Nat × Bool
  | some p, _ => (p, some p, false)
  | none, fresh => (fresh, some fresh, true)

/-! ### reqwest client configurations of the five outbound fetch sites

Each builder call chain in the source is recorded field by field;
cookieProvider is whether cookie_store(true) with the shared jar
was configured on the builder. -/

structure ClientConfig where
  cookieProvider : Bool
  timeoutSecs : Nat
  connectTimeoutSecs : Option Nat
  redirectLimit : Nat
  gzip : Bool
  brotli : Bool
  deflate : Bool
  deriving DecidableEq, Repr

/-- Client of logic_fetch_raw_html (shared.rs lines 80-89). -/
def clientLogicFetchRawHtml : ClientConfig :=
  { cookieProvider := true, timeoutSecs := 30, connectTimeoutSecs := none
    redirectLimit := 10, gzip := true, brotli := true, deflate := true }

/-- Client of logic_fetch_article (shared.rs lines 134-141) and of
fetch_article (main.rs lines 129-136). -/
def clientLogicFetchArticle : ClientConfig :=
  { cookieProvider := false, timeoutSecs := 30, connectTimeoutSecs := none
    redirectLimit := 10, gzip := true, brotli := true, deflate := true }

/-- Client of logic_perform_form_login (shared.rs lines 282-288). -/
def clientFormLogin : ClientConfig :=
  { cookieProvider := true, timeoutSecs := 30, connectTimeoutSecs := none
    redirectLimit := 10, gzip := false, brotli := false, deflate := false }

/-- Client of proxy_resource_handler (proxy.rs lines 699-707). -/
def clientResourceHandler : ClientConfig :=
  { cookieProvider := false, timeoutSecs := 30, connectTimeoutSecs := some 10
    redirectLimit := 10, gzip := true, brotli := true, deflate := true }

/-- Client of proxy_handler (proxy.rs lines 958-966). -/
def clientPageHandler : ClientConfig :=
  { cookieProvider := false, timeoutSecs := 30, connectTimeoutSecs := some 10
    redirectLimit := 10, gzip := true, brotli := true, deflate := true }

/-! ### Helper lemmas -/

theorem listInfix_iff (pat l : List Char) : listInfix pat l = true ↔ pat <:+: l := by
  induction l with
  | nil =>
    simp only [listInfix, List.isEmpty_iff, List.infix_nil]
  | cons a t ih =>
    simp only [listInfix, Bool.or_eq_true, List.isPrefixOf_iff_prefix, ih,
      List.infix_cons_iff]

theorem containsSubstr_iff (s pat : String) :
    containsSubstr s pat = true ↔ pat.data <:+: s.data := by
  simp only [containsSubstr, listInfix_iff]

theorem containsSubstr_append_right (A B p : String)
    (h : containsSubstr A p = true) : containsSubstr (A ++ B) p = true := by
  rw [containsSubstr_iff] at h ⊢
  rw [String.data_append]
  exact h.trans (List.prefix_append A.data B.data).isInfix

theorem contentTypeErrMsg_ne_emptyErrMsg (ct : String) :
    contentTypeErrMsg ct ≠ emptyErrMsg := by
  intro h
  have h2 := congrArg (fun s : String => s.data.take 1) h
  simp only [contentTypeErrMsg, emptyErrMsg, String.data_append,
    List.append_assoc] at h2
  rw [List.take_append_of_le_length (by decide)] at h2
  exact absurd h2 (by decide)

theorem contentTypeErrMsg_ne_binaryErrMsg (ct : String) :
    contentTypeErrMsg ct ≠ binaryErrMsg := by
  intro h
  have h2 := congrArg (fun s : String => s.data.take 9) h
  simp only [contentTypeErrMsg, binaryErrMsg, String.data_append,
    List.append_assoc] at h2
  rw [List.take_append_of_le_length (by decide)] at h2
  exact absurd h2 (by decide)

theorem fetchArticleTail_cases (html : String) (ex : Option Product) :
    fetchArticleTail html ex = .error binaryErrMsg ∨
    ∃ s, fetchArticleTail html ex = .ok s := by
  unfold fetchArticleTail
  dsimp only
  repeat' split
  all_goals first
    | exact Or.inl rfl
    | exact Or.inr ⟨_, rfl⟩

theorem fetchArticle_pass_ct (hdr : Option String) (body : String)
    (ex : Option Product)
    (h : (!(containsSubstr (hdr.getD "") "text/html") &&
        !(containsSubstr (hdr.getD "") "application/xhtml")) = false) :
    fetchArticle hdr body ex = .error emptyErrMsg ∨
    fetchArticle hdr body ex = .error binaryErrMsg ∨
    ∃ s, fetchArticle hdr body ex = .ok s := by
  unfold fetchArticle
  simp only [h, Bool.false_eq_true, if_false]
  repeat' split
  all_goals first
    | exact Or.inl rfl
    | exact Or.inr (Or.inr ⟨_, rfl⟩)
    | (rcases fetchArticleTail_cases body ex with h1 | ⟨s, h1⟩
       · exact Or.inr (Or.inl h1)
       · exact Or.inr (Or.inr ⟨s, h1⟩))

/-! ### Claim theorems -/

/-- C1 counterexample: a response whose body is byte-identical to the
canonical empty document but whose Content-Type is application/json
makes fetch_article return the content-type error, not the fallback
sentinel — the claim fails without a condition on the content type. -/
theorem c1_counterexample :
    fetchArticle (some "application/json") canonicalEmptyDoc none =
      .error (contentTypeErrMsg "application/json") ∧
    fetchArticle (some "application/json") canonicalEmptyDoc none ≠
      .ok fallbackSignal := by
  have he : fetchArticle (some "application/json") canonicalEmptyDoc none =
      .error (contentTypeErrMsg "application/json") := rfl
  exact ⟨he, fun hk => Except.noConfusion (he.symm.trans hk)⟩

/-- C1 amended: for every response whose Content-Type passes the HTML
check (contains text/html or application/xhtml) and whose body is
byte-identical to the canonical empty document, fetch_article returns
the fallback sentinel — never an error and never empty content —
whatever the readability extractor would have produced. -/
theorem c1_canonical_empty_fallback (ct : String) (ex : Option Product)
    (h : containsSubstr ct "text/html" = true ∨
      containsSubstr ct "application/xhtml" = true) :
    fetchArticle (some ct) canonicalEmptyDoc ex = .ok fallbackSignal ∧
    fallbackSignal ≠ "" := by
  have hcond : (!(containsSubstr ct "text/html") &&
      !(containsSubstr ct "application/xhtml")) = false := by
    rcases h with h | h <;> simp [h]
  constructor
  · unfold fetchArticle
    simp only [Option.getD_some, hcond, Bool.false_eq_true, if_false]
    rfl
  · decide

/-- C1 witness: the amended theorem evaluated at Content-Type text/html
and a failing extractor oracle. -/
theorem c1_witness :
    fetchArticle (some "text/html") canonicalEmptyDoc none =
      .ok fallbackSignal ∧ fallbackSignal ≠ "" :=
  c1_canonical_empty_fallback "text/html" none (Or.inl rfl)

/-- C6 counterexample: a response carrying no Content-Type header at
all is rejected by fetch_article at the content-type step (the absent
header reads as the empty string, which contains neither marker),
contradicting the claim that it is not rejected there. -/
theorem c6_counterexample :
    fetchArticle none "<html><body><p>hello</p></body></html>" none =
      .error (contentTypeErrMsg "") := by
  rfl

/-- C6 amended: fetch_article rejects with the content-type error
exactly when the effective Content-Type — the header value, or the
empty string when the header is absent — contains neither text/html
nor application/xhtml; in particular a response with no Content-Type
header is rejected at this step. -/
theorem c6_content_type_reject (hdr : Option String) (body : String)
    (ex : Option Product) :
    fetchArticle hdr body ex = .error (contentTypeErrMsg (hdr.getD "")) ↔
      (containsSubstr (hdr.getD "") "text/html" = false ∧
       containsSubstr (hdr.getD "") "application/xhtml" = false) := by
  constructor
  · intro h
    cases hc1 : containsSubstr (hdr.getD "") "text/html" <;>
      cases hc2 : containsSubstr (hdr.getD "") "application/xhtml"
    · exact ⟨rfl, rfl⟩
    all_goals {
      have hcond : (!(containsSubstr (hdr.getD "") "text/html") &&
          !(containsSubstr (hdr.getD "") "application/xhtml")) = false := by
        rw [hc1, hc2]; rfl
      rcases fetchArticle_pass_ct hdr body ex hcond with he | he | ⟨s, he⟩ <;>
        rw [he] at h
      · exact absurd (Except.error.inj h).symm
          (contentTypeErrMsg_ne_emptyErrMsg _)
      · exact absurd (Except.error.inj h).symm
          (contentTypeErrMsg_ne_binaryErrMsg _)
      · exact Except.noConfusion h
    }
  · rintro ⟨h1, h2⟩
    unfold fetchArticle
    simp [h1, h2]

/-- C6 witness: the rejection evaluated at an application/json
content type. -/
theorem c6_witness :
    fetchArticle (some "application/json") "<html></html>" none =
      .error (contentTypeErrMsg "application/json") :=
  (c6_content_type_reject (some "application/json") "<html></html>" none).mpr
    ⟨rfl, rfl⟩

/-- C2: in the Page Handler rewriting, a src value /img/a.png on a page
whose target is https://example.com/blog/post is rewritten, for every
proxy port, to the proxy-origin URL whose path and query are exactly
/proxy?url=https%3A%2F%2Fexample.com%2Fimg%2Fa.png — the absolute URL
is formed from the domain root (img, not blog/img), not by
path-relative resolution. -/
theorem c2_src_rewrite_domain_root (port : Nat) :
    rewriteSrcAttr
      { scheme := "https", host := some "example.com",
        path := "/blog/post", query := none } port "/img/a.png" =
    "http://localhost:" ++ toString port ++ "/proxy?url=" ++
      "https%3A%2F%2Fexample.com%2Fimg%2Fa.png" := by
  rfl

/-- C3 counterexample: the Page Handler anchor callback leaves the
relative navigation link b.html unchanged; it is not rewritten to
blog/b.html as the claim states. -/
theorem c3_counterexample :
    rewriteNavHref "b.html" = "b.html" ∧ "b.html" ≠ "blog/b.html" := by
  exact ⟨rfl, by decide⟩

/-- C3 amended: the Page Handler anchor callback never routes a
navigation link through /proxy?url=; a href with a leading slash loses
only the slash, and every other href — in particular the relative
b.html on the https://example.com/blog/post page — is left unchanged,
so the browser resolves it against the proxy page path (yielding
blog/b.html relative to the proxy root) and re-navigation re-enters the
Page Handler. -/
theorem c3_nav_href_kept (href : String) :
    rewriteNavHref "b.html" = "b.html" ∧
    rewriteNavHref "/blog/b.html" = "blog/b.html" ∧
    (rewriteNavHref href = href ∨ rewriteNavHref href = strDrop1 href) := by
  refine ⟨rfl, rfl, ?_⟩
  unfold rewriteNavHref
  split
  · split
    · exact Or.inr rfl
    · exact Or.inl rfl
  · exact Or.inl rfl

/-- C5: start_proxy is idempotent — from any stored-port state, a
second call in a row returns the same port as the first, spawns no
second listener, and leaves the stored port exactly as the first call
set it. -/
theorem c5_start_proxy_idempotent (s0 : Option Nat) (f1 f2 : Nat) :
    (startProxy (startProxy s0 f1).2.1 f2).1 = (startProxy s0 f1).1 ∧
    (startProxy (startProxy s0 f1).2.1 f2).2.2 = false ∧
    (startProxy (startProxy s0 f1).2.1 f2).2.1 = (startProxy s0 f1).2.1 ∧
    (startProxy s0 f1).2.1 = some (startProxy s0 f1).1 := by
  cases s0 <;> simp [startProxy]

/-- C9 counterexample: the claim says every outbound fetch consults the
shared cookie jar, but the clients of the Resource Handler, the Page
Handler and the article-extraction fetch are built without the jar. -/
theorem c9_counterexample :
    clientResourceHandler.cookieProvider = false ∧
    clientPageHandler.cookieProvider = false ∧
    clientLogicFetchArticle.cookieProvider = false :=
  ⟨rfl, rfl, rfl⟩

/-- C9 amended: of the five outbound fetch sites, exactly the raw-HTML
fetch and the form-login POST configure the shared cookie jar; the
article-extraction fetch, the Page Handler fetch and the Resource
Handler fetch do not. -/
theorem c9_cookie_jar_usage :
    clientLogicFetchRawHtml.cookieProvider = true ∧
    clientFormLogin.cookieProvider = true ∧
    clientLogicFetchArticle.cookieProvider = false ∧
    clientPageHandler.cookieProvider = false ∧
    clientResourceHandler.cookieProvider = false :=
  ⟨rfl, rfl, rfl, rfl, rfl⟩

/-- C4: fetch_raw_html yields the structured error AUTH_REQUIRED:origin
— origin being scheme://host of the requested URL — exactly when the
upstream status is 401; any other status yields the body, not an
error. -/
theorem c4_auth_required_iff (u : Url) (status : Nat) (body : String) :
    (fetchRawHtmlRespond u status body =
        .error ("AUTH_REQUIRED:" ++ originOf u) ↔ status = 401) ∧
    (status ≠ 401 → fetchRawHtmlRespond u status body = .ok body) := by
  by_cases h : status = 401 <;> simp [fetchRawHtmlRespond, h]

/-- C4 witness: a 401 from https://example.com yields the structured
auth error carrying that origin. -/
theorem c4_witness :
    fetchRawHtmlRespond
      { scheme := "https", host := some "example.com", path := "/", query := none }
      401 "" = .error "AUTH_REQUIRED:https://example.com" :=
  (c4_auth_required_iff
    { scheme := "https", host := some "example.com", path := "/", query := none }
    401 "").1.mpr rfl

/-- C7: when the upstream fetch of either handler returns 401, the
handler responds 200 with the synthesized HTML page — identical for
both handlers — whose content is the script posting the
PROXY_AUTH_REQUIRED message with the origin to the parent window plus
the human-readable fallback message naming the origin; the 401 is not
passed through. -/
theorem c7_auth_page_on_401 (domain : String) (up : HttpResponse)
    (rwf : String → String) (h : up.status = 401) :
    (pageRespond domain up rwf).status = 200 ∧
    (pageRespond domain up rwf).body = authRequiredHtml domain ∧
    containsSubstr (pageRespond domain up rwf).body "PROXY_AUTH_REQUIRED" = true ∧
    containsSubstr (pageRespond domain up rwf).body
      ("Authentication required for " ++ domain) = true ∧
    resourceRespond domain up rwf = pageRespond domain up rwf := by
  have hb : (up.status == 401) = true := by simp [h]
  have hpage : pageRespond domain up rwf =
      { status := 200,
        headers := [("content-type", "text/html; charset=utf-8")],
        body := authRequiredHtml domain } := by
    simp [pageRespond, hb]
  have hres : resourceRespond domain up rwf = pageRespond domain up rwf := by
    simp [resourceRespond, pageRespond, hb]
  refine ⟨by rw [hpage], by rw [hpage], ?_, ?_, hres⟩
  · rw [hpage]
    show containsSubstr (authRequiredHtml domain) "PROXY_AUTH_REQUIRED" = true
    unfold authRequiredHtml
    have h1 : containsSubstr authHtmlPre "PROXY_AUTH_REQUIRED" = true := rfl
    exact containsSubstr_append_right _ _ _ (containsSubstr_append_right _ _ _
      (containsSubstr_append_right _ _ _ (containsSubstr_append_right _ _ _ h1)))
  · rw [hpage]
    show containsSubstr (authRequiredHtml domain)
      ("Authentication required for " ++ domain) = true
    rw [containsSubstr_iff]
    have hm : authHtmlMid =
        "\x27\n\x7d, \x27*\x27);\n</script>\n<p style=\"font-family: system-ui; text-align: center; padding: 2rem;\">\n"
          ++ "Authentication required for " := rfl
    unfold authRequiredHtml
    rw [hm]
    refine ⟨authHtmlPre.data ++ (escapeQuote domain).data ++
      ("\x27\n\x7d, \x27*\x27);\n</script>\n<p style=\"font-family: system-ui; text-align: center; padding: 2rem;\">\n").data,
      authHtmlPost.data, ?_⟩
    simp [String.data_append, List.append_assoc]

/-- C7 witness: the 401 branch evaluated for https://example.com. -/
theorem c7_witness :
    (pageRespond "https://example.com"
      { status := 401, headers := [], body := "" } id).status = 200 ∧
    (pageRespond "https://example.com"
      { status := 401, headers := [], body := "" } id).body =
      authRequiredHtml "https://example.com" ∧
    containsSubstr (pageRespond "https://example.com"
      { status := 401, headers := [], body := "" } id).body
      "PROXY_AUTH_REQUIRED" = true ∧
    containsSubstr (pageRespond "https://example.com"
      { status := 401, headers := [], body := "" } id).body
      ("Authentication required for " ++ "https://example.com") = true ∧
    resourceRespond "https://example.com"
      { status := 401, headers := [], body := "" } id =
      pageRespond "https://example.com"
        { status := 401, headers := [], body := "" } id :=
  c7_auth_page_on_401 "https://example.com"
    { status := 401, headers := [], body := "" } id rfl

/-- C8 counterexample: the synthesized 401 response of each handler
carries no Access-Control-Allow-Origin header at all, so not every
served response adds the CORS headers. -/
theorem c8_counterexample :
    headerLookup (pageRespond "https://example.com"
      { status := 401, headers := [("x-frame-options", "deny")], body := "" }
      id).headers "access-control-allow-origin" = none ∧
    headerLookup (resourceRespond "https://example.com"
      { status := 401, headers := [("x-frame-options", "deny")], body := "" }
      id).headers "access-control-allow-origin" = none :=
  ⟨rfl, rfl⟩

/-- C8 amended: every response either handler builds from a non-401
upstream response carries exactly the CORS headers followed by the
upstream headers minus Content-Length, Content-Security-Policy,
X-Frame-Options and Transfer-Encoding, with the upstream status passed
through; the synthesized 401 response instead carries only its own
Content-Type header and no CORS headers. -/
theorem c8_forwarded_headers (domain : String) (up : HttpResponse)
    (rwf : String → String) (h : up.status ≠ 401) :
    (pageRespond domain up rwf).headers =
      corsHeaders ++ up.headers.filter (fun kv => keepHeader kv.1) ∧
    (pageRespond domain up rwf).status = up.status ∧
    headerLookup (pageRespond domain up rwf).headers
      "access-control-allow-origin" = some "*" ∧
    resourceRespond domain up rwf = pageRespond domain up rwf := by
  have hb : (up.status == 401) = false := by simp [h]
  refine ⟨?_, ?_, ?_, ?_⟩ <;>
    simp [pageRespond, resourceRespond, hb, headerLookup, corsHeaders]

/-- C8 witness: header forwarding evaluated on a concrete 200 upstream
response bearing one stripped and one kept header. -/
theorem c8_witness :
    (pageRespond "d"
      { status := 200,
        headers := [("content-length", "5"), ("etag", "x")], body := "b" }
      id).headers =
      corsHeaders ++ (([("content-length", "5"), ("etag", "x")] :
        List (String × String)).filter (fun kv => keepHeader kv.1)) ∧
    (pageRespond "d"
      { status := 200,
        headers := [("content-length", "5"), ("etag", "x")], body := "b" }
      id).status = 200 ∧
    headerLookup (pageRespond "d"
      { status := 200,
        headers := [("content-length", "5"), ("etag", "x")], body := "b" }
      id).headers "access-control-allow-origin" = some "*" ∧
    resourceRespond "d"
      { status := 200,
        headers := [("content-length", "5"), ("etag", "x")], body := "b" } id =
    pageRespond "d"
      { status := 200,
        headers := [("content-length", "5"), ("etag", "x")], body := "b" } id :=
  c8_forwarded_headers "d"
    { status := 200, headers := [("content-length", "5"), ("etag", "x")],
      body := "b" } id (by decide)

/-- C10: the Resource Handler answers 400 Bad Request — uniformly in
the fetch oracle, hence without any upstream request — whenever the url
query parameter is missing, fails percent-decoding, or does not parse
as a URL. -/
theorem c10_bad_request (params : List (String × String))
    (fetch : Url → HttpResponse) (rwf : String → String)
    (h : lookupParam params "url" = none ∨
      (∃ raw, lookupParam params "url" = some raw ∧ percentDecode raw = none) ∨
      (∃ raw d, lookupParam params "url" = some raw ∧
        percentDecode raw = some d ∧ Url.parse d = none)) :
    proxyResourceHandler params fetch rwf = .failStatus 400 := by
  unfold proxyResourceHandler
  rcases h with h | ⟨raw, h1, h2⟩ | ⟨raw, d, h1, h2, h3⟩
  · simp [h]
  · simp [h1, h2]
  · simp [h1, h2, h3]

/-- C10 witness: the parameter %FF percent-decodes to an invalid UTF-8
byte, and the handler answers 400 under an arbitrary fetch oracle. -/
theorem c10_witness :
    percentDecode "%FF" = none ∧
    proxyResourceHandler [("url", "%FF")]
      (fun _ => { status := 200, headers := [], body := "" }) id =
      .failStatus 400 :=
  ⟨rfl, c10_bad_request _ _ _ (Or.inr (Or.inl ⟨"%FF", rfl, rfl⟩))⟩

end Spec2Proof
